import Mathlib

/-!
A shallow embedding of `httptest.py`, a disposable HTTP test-server library,
together with theorems settling a list of claims about it.

Python strings are modelled as `List Char` (`PyStr`), byte strings as
`List Nat` (`Bytes`).  Python dicts (insertion ordered, as in CPython >= 3.7)
are modelled as association lists with an update-in-place `dictSet`.
Nondeterministic inputs of the real system (current time, port availability,
whether a thread signals/exits within the timeout) are passed in as explicit
oracle parameters.
-/

set_option autoImplicit false

abbrev PyStr := List Char

abbrev Bytes := List Nat

/-- Python truthiness of an `Optional[str]`: `None` and `''` are falsy. -/
def pyTruthy : Option PyStr → Bool
  | none => false
  | some s => !s.isEmpty

/-- Python `str.lower()` restricted to the ASCII header names used here. -/
def pyLower (s : PyStr) : PyStr := s.map Char.toLower

/-- Python `str.isdigit()` for ASCII decimal strings: nonempty and all digits. -/
def pyIsDigit (s : PyStr) : Bool := !s.isEmpty && s.all Char.isDigit

/-- Python `int(s)` for a decimal digit string. -/
def pyToNat (s : PyStr) : Nat := s.foldl (fun n c => 10 * n + (c.toNat - '0'.toNat)) 0

/-- Python `str(n)` for a natural number. -/
def pyStrOfNat (n : Nat) : PyStr := (toString n).data

/-- Insertion-ordered string dict, as CPython dicts behave. -/
abbrev Dict := List (PyStr × PyStr)

/-- `d.get(k)` / `k in d`. -/
def dictGet (d : Dict) (k : PyStr) : Option PyStr :=
  match d with
  | [] => none
  | (k', v) :: rest => if k' = k then some v else dictGet rest k

/-- `d[k] = v`: update in place if present, else append at the end. -/
def dictSet (d : Dict) (k v : PyStr) : Dict :=
  match d with
  | [] => [(k, v)]
  | (k', v') :: rest => if k' = k then (k', v) :: rest else (k', v') :: dictSet rest k v

/-! ## The WSGI environ and the request/response records -/

/--
The WSGI `environ` entries read by `_logmiddleware`.  `httpVars` holds the
items of `environ.items()` whose keys may carry the `HTTP_` prefix, in
iteration order; `wsgiInput` is the byte stream behind `environ['wsgi.input']`.
Entries accessed with `environ.get(...)` are `Option`s (absent = `none`).
-/
structure Environ where
  requestMethod : PyStr
  serverProtocol : PyStr
  remoteAddr : PyStr
  scriptName : Option PyStr
  pathInfo : Option PyStr
  queryString : Option PyStr
  contentLength : Option PyStr
  contentType : Option PyStr
  httpVars : List (PyStr × PyStr)
  wsgiInput : Bytes
  deriving DecidableEq

/-- `class TestRequest`: all fields default to `None`. -/
structure TestRequest where
  method : Option PyStr := none
  protocol : Option PyStr := none
  address : Option PyStr := none
  path : Option PyStr := none
  headers : Option Dict := none
  body : Option Bytes := none
  deriving DecidableEq

/-- `class TestResponse`: all fields default to `None`. -/
structure TestResponse where
  status : Option PyStr := none
  headers : Option Dict := none
  body : Option Bytes := none
  deriving DecidableEq

abbrev Exchange := TestRequest × TestResponse

/-! ## The logging middleware, `_logmiddleware` -/

/--
The path reconstruction of `_logmiddleware` (httptest.py lines 119-128):
`path = environ.get('SCRIPT_NAME') or '/'`, then `path += pathinfo[1:]` when
`SCRIPT_NAME` is falsy else `path += pathinfo`, then `path += '?' + qs` when
the query string is truthy.
-/
def recordedPath (scriptName pathInfo queryString : Option PyStr) : PyStr :=
  let path := if pyTruthy scriptName then scriptName.getD [] else "/".data
  let pinfo := pathInfo.getD []
  let path := if !pyTruthy scriptName then path ++ pinfo.drop 1 else path ++ pinfo
  if pyTruthy queryString then path ++ '?' :: queryString.getD [] else path

/--
`length` as computed from `environ.get('CONTENT_LENGTH')` (lines 130-134):
`int(rawlength)` when the raw value is truthy and all digits, else `-1`.
-/
def parsedLength (contentLength : Option PyStr) : Int :=
  match contentLength with
  | some s => if !s.isEmpty && pyIsDigit s then (pyToNat s : Int) else (-1 : Int)
  | none => (-1 : Int)

/--
Body capture (lines 135-139): when `length > 0`, `request.body` is
`wsgi.input.read(length)` and the input stream is replaced by a buffer of
exactly those bytes; otherwise `request.body = None` and the stream is left
alone.  Returns `(request.body, new wsgi.input)`.
-/
def recordedBody (contentLength : Option PyStr) (input : Bytes) : Option Bytes × Bytes :=
  let length := parsedLength contentLength
  if length > 0 then
    let body := input.take length.toNat
    (some body, body)
  else
    (none, input)

/--
`reqheaders` (lines 141-151): `content-length` and `content-type` from the
dedicated environ entries when truthy, then every `HTTP_`-prefixed item with
the prefix stripped, `_` replaced by `-`, and the key lower-cased.
-/
def reqHeaders (environ : Environ) : Dict :=
  let d : Dict := []
  let d := if pyTruthy environ.contentLength then
             dictSet d "content-length".data (environ.contentLength.getD []) else d
  let d := if pyTruthy environ.contentType then
             dictSet d "content-type".data (environ.contentType.getD []) else d
  environ.httpVars.foldl (fun d kv =>
    if kv.1.take 5 = "HTTP_".data then
      dictSet d (pyLower ((kv.1.drop 5).map (fun c => if c = '_' then '-' else c))) kv.2
    else d) d

/--
`resheaders` accumulation inside `start_response_wrapper` (lines 159-164):
a repeated (lower-cased) header name concatenates values with `','`.
-/
def addHeader (d : Dict) (k v : PyStr) : Dict :=
  match dictGet d k with
  | some old => dictSet d k (old ++ ',' :: v)
  | none => dictSet d k v

/--
`start_response_wrapper` (lines 155-174): fold the handler's header list into
`resheaders` with lower-cased keys, then inject `date` and `server` when
absent, appending them also to the handler's `headers` list.  The underlying
`start_response` has already been handed that same list object, and wsgiref's
`Headers` keeps a reference to it, so the appended entries are what the
transport sends.  Returns `(response.status, resheaders, headers)` with
`headers` in its final, transport-visible state.  The two symmetric
`if 'x' not in resheaders:` blocks of the source are factored through
`injectIfMissing`.
-/
def injectIfMissing (k kCap v : PyStr) (rh : Dict) (hs : List (PyStr × PyStr)) :
    Dict × List (PyStr × PyStr) :=
  if dictGet rh k = none then (dictSet rh k v, hs ++ [(kCap, v)]) else (rh, hs)

def startResponseWrapper (now status : PyStr) (headers : List (PyStr × PyStr)) :
    PyStr × Dict × List (PyStr × PyStr) :=
  let resheaders := headers.foldl (fun d kv => addHeader d (pyLower kv.1) kv.2) []
  let p := injectIfMissing "date".data "Date".data now resheaders headers
  let p := injectIfMissing "server".data "Server".data "httptest".data p.1 p.2
  (status, p.1, p.2)

/--
The observable behaviour of one invocation of the wrapped WSGI app:
either it calls `start_response` once, writes some chunks through the
returned `write` callable and returns an iterable of chunks, or it raises —
possibly after having called `start_response` and written some chunks.
-/
inductive AppBehavior (ε : Type) where
  | normal (status : PyStr) (headers : List (PyStr × PyStr)) (written out : List Bytes)
  | raisesBefore (e : ε)
  | raisesAfter (status : PyStr) (headers : List (PyStr × PyStr)) (written : List Bytes) (e : ε)

/-- The outcome of one invocation of `_logmiddleware`'s `wrapper`. -/
structure WrapResult (ε : Type) where
  /-- What `wrapper` returns to the server, or the propagated exception. -/
  result : Except ε (List Bytes)
  /-- The `(request, response)` pairs this invocation put on `logqueue`. -/
  queued : List Exchange
  /-- The status forwarded to the underlying `start_response`, if called. -/
  transportStatus : Option PyStr
  /-- The final state of the header list the transport holds a reference to. -/
  transportHeaders : List (PyStr × PyStr)
  /-- Byte chunks that reach the real client (written, then returned ones). -/
  clientChunks : List Bytes

/-- The environ as the handler sees it: `wsgi.input` replaced at line 137. -/
def environAfterBodyRead (environ : Environ) : Environ :=
  { environ with wsgiInput := (recordedBody environ.contentLength environ.wsgiInput).2 }

/--
`_logmiddleware`'s `wrapper` (lines 111-192).  The `try`/`finally` is modelled
by every branch queueing exactly its `(request, response)` pair; a raising
handler yields `result = .error e` with the partially filled response.
`now` stands for `format_date_time(time.time())`.
-/
def logwrapper {ε : Type} (app : Environ → AppBehavior ε) (now : PyStr)
    (environ : Environ) : WrapResult ε :=
  let request : TestRequest :=
    { method := some environ.requestMethod
      protocol := some environ.serverProtocol
      address := some environ.remoteAddr
      path := some (recordedPath environ.scriptName environ.pathInfo environ.queryString)
      body := (recordedBody environ.contentLength environ.wsgiInput).1
      headers := some (reqHeaders environ) }
  match app (environAfterBodyRead environ) with
  | .raisesBefore e =>
      { result := .error e
        queued := [(request, { status := none, headers := none, body := none })]
        transportStatus := none
        transportHeaders := []
        clientChunks := [] }
  | .raisesAfter status headers written e =>
      let t := startResponseWrapper now status headers
      { result := .error e
        queued := [(request, { status := some t.1, headers := none, body := none })]
        transportStatus := some t.1
        transportHeaders := t.2.2
        clientChunks := written }
  | .normal status headers written out =>
      let t := startResponseWrapper now status headers
      let resbody := written.flatten ++ out.flatten
      let resh := if dictGet t.2.1 "content-length".data = none then
                    dictSet t.2.1 "content-length".data (pyStrOfNat resbody.length)
                  else t.2.1
      { result := .ok out
        queued := [(request, { status := some t.1, headers := some resh, body := some resbody })]
        transportStatus := some t.1
        transportHeaders := t.2.2
        clientChunks := written ++ out }

/-! ## The lifecycle controller, `TestServer` -/

/--
The only exception type the lifecycle code raises: Python's generic
`RuntimeError`, carrying the start of the message (`%r` of the server elided).
-/
inductive PyError where
  | runtimeError (msg : PyStr)
  deriving DecidableEq

/-- Externally visible effects of `start`/`stop`, in order of occurrence. -/
inductive Act where
  /-- A runner thread for `(host, port)` was started (`Thread(...).start()`). -/
  | launchRunner (host : PyStr) (port : Nat)
  /-- `start.wait(secs)` on the ready event. -/
  | waitReady (secs : Nat)
  /-- `os.write(self._stoppipe[1], b's')`. -/
  | writeStopPipe
  /-- `self._httpd.join(secs)`. -/
  | joinRunner (secs : Nat)
  /-- Forcible termination of the runner.  No line of httptest.py emits it;
      it exists so that its absence from a trace is expressible. -/
  | terminateRunner
  /-- `os.close` on one end of the stop pipe. -/
  | closeStopPipe
  deriving DecidableEq

/--
The `for port in range(self._startport, self._startport + 100)` loop of
`TestServer.start` (lines 226-229): `port` keeps the last value assigned by
the loop header, and the loop breaks at the first available port.
-/
def probeLoop (avail : Nat → Bool) : List Nat → Nat → Nat
  | [], port => port
  | p :: ps, _ => if avail p then p else probeLoop avail ps p

/-- The port the probe loop of `start` settles on. -/
def findPort (avail : Nat → Bool) (startport : Nat) : Nat :=
  probeLoop avail (List.range' startport 100) startport

/-- `_servertimeout = 5` (httptest.py line 208). -/
def _servertimeout : Nat := 5

/--
The fields of `TestServer` (lines 213-221).  The app is an opaque value of
type `α`; the thread object and the pipe pair are modelled by `Option Unit`
(`some ()` = a live Python object is referenced, `none` = the field is
`None`).  The queue `_logqueue` holds exchanges in arrival order.
-/
structure TestServer (α : Type) where
  _app : α
  _host : PyStr
  _startport : Nat
  _port : Nat
  _httpd : Option Unit
  _log : List Exchange
  _logqueue : List Exchange
  _stoppipe : Option Unit

/-- `TestServer.__init__(self, app=nocontent, host='localhost', startport=30059)`. -/
def TestServer.init {α : Type} (app : α) (host : PyStr := "localhost".data)
    (startport : Nat := 30059) : TestServer α :=
  { _app := app
    _host := host
    _startport := startport
    _port := startport
    _httpd := none
    _log := []
    _logqueue := []
    _stoppipe := none }

/--
`TestServer.start` (lines 223-240).  `avail` is the oracle for
`_portavailable`; `readyInTime` is the oracle for whether `start.wait(5)`
observes the ready event.  Returns the post-call state, the trace of effects,
and the exception raised, if any.  Note that on the timeout path the state
has already been mutated — the thread was launched and stays referenced.
-/
def TestServer.start {α : Type} (s : TestServer α) (avail : Nat → Bool)
    (readyInTime : Bool) : TestServer α × List Act × Option PyError :=
  match s._httpd with
  | some _ => (s, [], none)
  | none =>
    let port := findPort avail s._startport
    let s' := { s with _port := port, _stoppipe := some (), _httpd := some () }
    let acts := [Act.launchRunner s._host port, Act.waitReady _servertimeout]
    if readyInTime then
      (s', acts, none)
    else
      (s', acts, some (PyError.runtimeError "Timed out while starting".data))

/--
`TestServer.stop` (lines 246-257).  `exitsInTime` is the oracle for whether
the runner thread is no longer alive after `join(5)`.  On success the thread
and pipe references are dropped; on timeout the state is left as it was and
a `RuntimeError` is raised.  `stop` never touches `_log` or `_logqueue`.
-/
def TestServer.stop {α : Type} (s : TestServer α) (exitsInTime : Bool) :
    TestServer α × List Act × Option PyError :=
  match s._httpd with
  | none => (s, [], none)
  | some _ =>
    if exitsInTime then
      ({ s with _httpd := none, _stoppipe := none },
       [Act.writeStopPipe, Act.joinRunner _servertimeout,
        Act.closeStopPipe, Act.closeStopPipe],
       none)
    else
      (s, [Act.writeStopPipe, Act.joinRunner _servertimeout],
       some (PyError.runtimeError "Timed out while stopping".data))

/--
The drain loop of `TestServer.log` (lines 276-282): repeatedly
`logqueue.get(block=False)` until `Empty`, appending each entry to `_log`.
Returns the final `(_log, _logqueue)`.
-/
def drainLoop (log queue : List Exchange) : List Exchange × List Exchange :=
  match queue with
  | [] => (log, [])
  | e :: rest => drainLoop (log ++ [e]) rest

/-- `TestServer.log` (lines 274-284): drain the queue, return the log. -/
def TestServer.log {α : Type} (s : TestServer α) : TestServer α × List Exchange :=
  let (newlog, newqueue) := drainLoop s._log s._logqueue
  ({ s with _log := newlog, _logqueue := newqueue }, newlog)

/-! ## Concrete instances used in witnesses and counterexamples -/

/-- The query-string suffix of the spec: `?<query>` when one is present. -/
def qsuffix (q : Option PyStr) : PyStr :=
  if pyTruthy q then '?' :: q.getD [] else []

/-- An exchange whose two records are still in their freshly-built state. -/
def egExchange : Exchange := (({} : TestRequest), ({} : TestResponse))

/-- A running server with one exchange pending in the channel. -/
def c2Server : TestServer Nat :=
  { TestServer.init 0 with _httpd := some (), _logqueue := [egExchange] }

/-- A sample WSGI environ: `GET /foo?x=1 HTTP/1.1` at the root mount point. -/
def egEnviron : Environ :=
  { requestMethod := "GET".data
    serverProtocol := "HTTP/1.1".data
    remoteAddr := "127.0.0.1".data
    scriptName := some []
    pathInfo := some "/foo".data
    queryString := some "x=1".data
    contentLength := none
    contentType := none
    httpVars := [("HTTP_HOST".data, "localhost:30059".data)]
    wsgiInput := [] }

/-- A handler answering `200 OK` with body `b"hi"` and no explicit headers. -/
def c6App : Environ → AppBehavior Unit :=
  fun _ => AppBehavior.normal "200 OK".data [] [] [[104, 105]]

/-- The outcome of running `c6App` through the middleware on `egEnviron`. -/
def c6Wrap : WrapResult Unit := logwrapper c6App "Thu".data egEnviron

/-- A handler that raises before calling `start_response`. -/
def c7App : Environ → AppBehavior Unit := fun _ => AppBehavior.raisesBefore ()

/-! ## Supporting lemmas -/

theorem dictGet_dictSet_self (d : Dict) (k v : PyStr) :
    dictGet (dictSet d k v) k = some v := by
  induction d with
  | nil => simp [dictGet, dictSet]
  | cons hd tl ih =>
    obtain ⟨k', v'⟩ := hd
    by_cases h : k' = k <;> simp [dictGet, dictSet, h, ih]

theorem dictGet_dictSet_ne (d : Dict) (k v k' : PyStr) (h : k' ≠ k) :
    dictGet (dictSet d k v) k' = dictGet d k' := by
  have h' : ¬ k = k' := fun e => h e.symm
  induction d with
  | nil => simp [dictGet, dictSet, h']
  | cons hd tl ih =>
    obtain ⟨k₀, v₀⟩ := hd
    by_cases h0 : k₀ = k
    · subst h0
      simp [dictGet, dictSet, h']
    · by_cases h1 : k₀ = k' <;> simp [dictGet, dictSet, h0, h1, h, ih]

theorem dictGet_addHeader_ne (d : Dict) (k v k' : PyStr) (h : k' ≠ k) :
    dictGet (addHeader d k v) k' = dictGet d k' := by
  unfold addHeader
  cases dictGet d k <;> simp [dictGet_dictSet_ne _ _ _ _ h]

theorem dictGet_foldl_addHeader (hs : List (PyStr × PyStr)) (d : Dict) (k : PyStr)
    (h : ∀ kv ∈ hs, pyLower kv.1 ≠ k) :
    dictGet (hs.foldl (fun d kv => addHeader d (pyLower kv.1) kv.2) d) k = dictGet d k := by
  induction hs generalizing d with
  | nil => rfl
  | cons hd tl ih =>
    have h1 : k ≠ pyLower hd.1 := fun e => h hd (List.mem_cons_self _ _) e.symm
    have h2 : ∀ kv ∈ tl, pyLower kv.1 ≠ k := fun kv hm => h kv (List.mem_cons_of_mem _ hm)
    simp only [List.foldl_cons]
    rw [ih _ h2, dictGet_addHeader_ne _ _ _ _ h1]

theorem injectIfMissing_of_missing (k kc v : PyStr) (rh : Dict) (hs : List (PyStr × PyStr))
    (h : dictGet rh k = none) :
    injectIfMissing k kc v rh hs = (dictSet rh k v, hs ++ [(kc, v)]) := by
  simp [injectIfMissing, h]

theorem dictGet_injectIfMissing_ne (k kc v k' : PyStr) (rh : Dict) (hs : List (PyStr × PyStr))
    (h : k' ≠ k) :
    dictGet (injectIfMissing k kc v rh hs).1 k' = dictGet rh k' := by
  unfold injectIfMissing
  by_cases hm : dictGet rh k = none <;> simp [hm, dictGet_dictSet_ne _ _ _ _ h]

/--
The `resheaders` component of `startResponseWrapper` maps `k` to `none`
whenever the handler supplied no header lower-casing to `k` and `k` is
neither `date` nor `server`.
-/
theorem srw_resheaders_none (now status k : PyStr) (headers : List (PyStr × PyStr))
    (h : ∀ kv ∈ headers, pyLower kv.1 ≠ k)
    (hd : k ≠ "date".data) (hs : k ≠ "server".data) :
    dictGet (startResponseWrapper now status headers).2.1 k = none := by
  unfold startResponseWrapper
  rw [dictGet_injectIfMissing_ne _ _ _ _ _ _ hs, dictGet_injectIfMissing_ne _ _ _ _ _ _ hd,
      dictGet_foldl_addHeader _ _ _ h]
  rfl

theorem drainLoop_eq (log queue : List Exchange) :
    drainLoop log queue = (log ++ queue, []) := by
  induction queue generalizing log with
  | nil => simp [drainLoop]
  | cons e rest ih => simp [drainLoop, ih]

theorem probeLoop_unavail (avail : Nat → Bool) (h : ∀ p, avail p = false) :
    ∀ (n s d : Nat), probeLoop avail (List.range' s (n + 1)) d = s + n := by
  intro n
  induction n with
  | zero => intro s d; simp [List.range', probeLoop, h s]
  | succ n ih =>
    intro s d
    have hr : List.range' s (n + 2) = s :: List.range' (s + 1) (n + 1) := by
      simp [List.range']
    have hstep : probeLoop avail (s :: List.range' (s + 1) (n + 1)) d
        = if avail s then s else probeLoop avail (List.range' (s + 1) (n + 1)) s := rfl
    rw [hr, hstep, h s]
    simp only [Bool.false_eq_true, if_false]
    rw [ih (s + 1) s]
    omega

theorem findPort_unavail (avail : Nat → Bool) (startport : Nat) (h : ∀ p, avail p = false) :
    findPort avail startport = startport + 99 := by
  have := probeLoop_unavail avail h 99 startport startport
  simpa [findPort] using this


/-! ## Claim C1: port-range exhaustion -/

set_option maxRecDepth 4000 in
/--
Claim C1, counterexample: with every candidate port unavailable, `start()`
does not fail with any port-exhaustion condition (here it raises nothing at
all) and a runner IS launched, on port `30059 + 99 = 30158`.
-/
theorem start_exhausted_cx :
    ((TestServer.init (0 : Nat)).start (fun _ => false) true).2.2 = none ∧
    Act.launchRunner "localhost".data 30158
      ∈ ((TestServer.init (0 : Nat)).start (fun _ => false) true).2.1 ∧
    ((TestServer.init (0 : Nat)).start (fun _ => false) true).1._httpd = some () := by
  refine ⟨?_, ?_, ?_⟩ <;> decide

/--
Claim C1, amended: when the port probe finds all 100 candidate ports
`[startport, startport+100)` unavailable, the probe loop falls through with
the last candidate `startport + 99`, a runner execution context IS launched
on that port, and the only failure `start()` can then raise is the generic
start-timeout `RuntimeError` — no `NoAvailablePort` condition exists.
-/
theorem start_exhausted_launches_runner {α : Type} (s : TestServer α)
    (avail : Nat → Bool) (readyInTime : Bool)
    (h0 : s._httpd = none) (h : ∀ p, avail p = false) :
    (s.start avail readyInTime).1._port = s._startport + 99 ∧
    Act.launchRunner s._host (s._startport + 99) ∈ (s.start avail readyInTime).2.1 ∧
    ∀ e, (s.start avail readyInTime).2.2 = some e →
      e = PyError.runtimeError "Timed out while starting".data := by
  have hf : findPort avail s._startport = s._startport + 99 := findPort_unavail avail _ h
  unfold TestServer.start
  rw [h0]
  simp only [hf]
  cases readyInTime <;> simp

/-- Claim C1, witness for the amended theorem at a concrete server. -/
theorem start_exhausted_launches_runner_witness :
    ((TestServer.init (0 : Nat))._httpd = none) ∧
    ((TestServer.init (0 : Nat)).start (fun _ => false) true).1._port = 30059 + 99 ∧
    Act.launchRunner "localhost".data (30059 + 99)
      ∈ ((TestServer.init (0 : Nat)).start (fun _ => false) true).2.1 :=
  ⟨rfl,
   (start_exhausted_launches_runner (TestServer.init 0) (fun _ => false) true rfl
      (fun _ => rfl)).1,
   (start_exhausted_launches_runner (TestServer.init 0) (fun _ => false) true rfl
      (fun _ => rfl)).2.1⟩

/-! ## Claim C2: who drains the channel -/

/--
Claim C2, counterexample: a successful `stop()` on a running server with one
exchange pending in the channel returns with the accumulated log still empty
and the exchange still pending — `stop()` drains nothing.
-/
theorem stop_does_not_drain_cx :
    (c2Server.stop true).2.2 = none ∧
    (c2Server.stop true).1._log = [] ∧
    (c2Server.stop true).1._logqueue = [egExchange] := by
  refine ⟨?_, ?_, ?_⟩ <;> decide

/--
Claim C2, amended: `stop()` leaves both the accumulated log and the pending
channel untouched; the draining is deferred to `log()`, which (without
blocking) moves all pending exchanges into the accumulated log in arrival
order, discarding none.
-/
theorem drain_in_log_not_stop {α : Type} (s : TestServer α) (exitsInTime : Bool) :
    ((s.stop exitsInTime).1._log = s._log ∧
     (s.stop exitsInTime).1._logqueue = s._logqueue) ∧
    ((s.log).2 = s._log ++ s._logqueue ∧
     (s.log).1._log = s._log ++ s._logqueue ∧
     (s.log).1._logqueue = []) := by
  constructor
  · cases hh : s._httpd <;> cases exitsInTime <;> simp [TestServer.stop, hh]
  · simp [TestServer.log, drainLoop_eq]

/-! ## Claim C3: what a start timeout does -/

/--
Claim C3, counterexample: when the ready signal does not arrive, `start()`
raises the generic `RuntimeError` (the very same exception type a stop
timeout raises — no distinct `StartTimeout` condition exists), the launched
runner is still referenced afterwards, and no termination action occurs.
-/
theorem start_timeout_cx :
    ((TestServer.init (0 : Nat)).start (fun _ => true) false).2.2
        = some (PyError.runtimeError "Timed out while starting".data) ∧
    ((TestServer.init (0 : Nat)).start (fun _ => true) false).1._httpd = some () ∧
    Act.terminateRunner ∉ ((TestServer.init (0 : Nat)).start (fun _ => true) false).2.1 ∧
    (({ TestServer.init (0 : Nat) with _httpd := some () } : TestServer Nat).stop false).2.2
        = some (PyError.runtimeError "Timed out while stopping".data) := by
  refine ⟨?_, ?_, ?_, ?_⟩ <;> decide

/--
Claim C3, amended: on a ready-signal timeout `start()` raises a generic
`RuntimeError` (not a distinct typed condition) and the half-started runner
is NOT terminated: it stays launched and referenced by the controller.
-/
theorem start_timeout_generic_and_leaky {α : Type} (s : TestServer α)
    (avail : Nat → Bool) (h0 : s._httpd = none) :
    (s.start avail false).2.2
        = some (PyError.runtimeError "Timed out while starting".data) ∧
    (s.start avail false).1._httpd = some () ∧
    Act.terminateRunner ∉ (s.start avail false).2.1 := by
  unfold TestServer.start
  rw [h0]
  simp

/-- Claim C3, witness for the amended theorem at a concrete server. -/
theorem start_timeout_generic_and_leaky_witness :
    ((TestServer.init (0 : Nat))._httpd = none) ∧
    (((TestServer.init (0 : Nat)).start (fun _ => true) false).2.2
        = some (PyError.runtimeError "Timed out while starting".data) ∧
     ((TestServer.init (0 : Nat)).start (fun _ => true) false).1._httpd = some () ∧
     Act.terminateRunner ∉ ((TestServer.init (0 : Nat)).start (fun _ => true) false).2.1) :=
  ⟨rfl, start_timeout_generic_and_leaky (TestServer.init 0) (fun _ => true) rfl⟩

/-! ## Claim C4: the timeout -/

/--
Claim C4, counterexample: the wait used by `start()` is the module constant
`_servertimeout = 5`, not 30, whatever the claim's "configurable" caller
passed to the constructor (which accepts no timeout argument at all).
-/
theorem servertimeout_cx :
    _servertimeout = 5 ∧
    ¬ _servertimeout = 30 ∧
    Act.waitReady 30 ∉ ((TestServer.init (0 : Nat)).start (fun _ => true) true).2.1 ∧
    Act.waitReady 5 ∈ ((TestServer.init (0 : Nat)).start (fun _ => true) true).2.1 := by
  refine ⟨?_, ?_, ?_, ?_⟩ <;> decide

/--
Claim C4, amended: the timeout governing `start()`'s wait on the ready
signal and `stop()`'s wait on runner exit is the module-level constant
`_servertimeout = 5` seconds for every server, independent of every
constructor argument; it is not configurable per call.
-/
theorem servertimeout_constant {α : Type} (s t : TestServer α) (avail : Nat → Bool)
    (readyInTime exitsInTime : Bool) (h0 : s._httpd = none) (h1 : t._httpd = some ()) :
    _servertimeout = 5 ∧
    Act.waitReady _servertimeout ∈ (s.start avail readyInTime).2.1 ∧
    Act.joinRunner _servertimeout ∈ (t.stop exitsInTime).2.1 := by
  refine ⟨rfl, ?_, ?_⟩
  · unfold TestServer.start
    rw [h0]
    cases readyInTime <;> simp
  · unfold TestServer.stop
    rw [h1]
    cases exitsInTime <;> simp

/-- Claim C4, witness for the amended theorem at concrete servers. -/
theorem servertimeout_constant_witness :
    ((TestServer.init (0 : Nat))._httpd = none) ∧
    (({ TestServer.init (0 : Nat) with _httpd := some () } : TestServer Nat)._httpd
        = some ()) ∧
    (_servertimeout = 5 ∧
     Act.waitReady _servertimeout
       ∈ ((TestServer.init (0 : Nat)).start (fun _ => true) true).2.1 ∧
     Act.joinRunner _servertimeout
       ∈ (({ TestServer.init (0 : Nat) with _httpd := some () } : TestServer Nat).stop
            true).2.1) :=
  ⟨rfl, rfl, servertimeout_constant (TestServer.init 0)
      { TestServer.init 0 with _httpd := some () } (fun _ => true) true true rfl rfl⟩

/-! ## Claim C9: stop is idempotent -/

/--
Claim C9: after a successful `stop()` (and equally on a server that was
never started) a further `stop()` call is a no-op: it performs no action,
raises nothing and leaves the state unchanged.
-/
theorem stop_idempotent {α : Type} (s : TestServer α) (e₁ : Bool)
    (h : (s.stop e₁).2.2 = none) (e₂ : Bool) :
    (s.stop e₁).1.stop e₂ = ((s.stop e₁).1, [], none) ∧
    ∀ (app : α) (host : PyStr) (sp : Nat) (e : Bool),
      (TestServer.init app host sp).stop e = (TestServer.init app host sp, [], none) := by
  constructor
  · cases hh : s._httpd with
    | none =>
      have hs : s.stop e₁ = (s, [], none) := by simp [TestServer.stop, hh]
      rw [hs]
      simp [TestServer.stop, hh]
    | some u =>
      cases e₁ with
      | true => simp [TestServer.stop, hh]
      | false => simp [TestServer.stop, hh] at h
  · intro app host sp e
    rfl

/-- Claim C9, witness: stop twice on a concrete running server. -/
theorem stop_idempotent_witness :
    ((({ TestServer.init (0 : Nat) with _httpd := some () } : TestServer Nat).stop true).2.2
        = none) ∧
    ((({ TestServer.init (0 : Nat) with _httpd := some () } : TestServer Nat).stop
          true).1.stop false
      = (((({ TestServer.init (0 : Nat) with _httpd := some () } : TestServer Nat)).stop
            true).1, [], none)) :=
  ⟨rfl, (stop_idempotent { TestServer.init 0 with _httpd := some () } true rfl false).1⟩

/-! ## Claim C5: injected content-length equals the emitted body length -/

/--
Claim C5: when the handler's response carries no `content-length` header,
the recorded response headers contain a `content-length` equal to the exact
byte length of the emitted body, the in-order concatenation of all chunks
passed to `write` followed by all chunks of the returned iterable — and the
recorded body is that concatenation.
-/
theorem response_content_length_injected (status : PyStr)
    (headers : List (PyStr × PyStr)) (written out : List Bytes) (now : PyStr)
    (env : Environ) (h : ∀ kv ∈ headers, pyLower kv.1 ≠ "content-length".data) :
    (logwrapper (fun _ => AppBehavior.normal status headers written out :
        Environ → AppBehavior Unit) now env).queued.map
        (fun x => (x.2.headers.map (fun rh => dictGet rh "content-length".data), x.2.body))
      = [(some (some (pyStrOfNat (written.flatten ++ out.flatten).length)),
          some (written.flatten ++ out.flatten))] := by
  have hcl : dictGet (startResponseWrapper now status headers).2.1 "content-length".data
      = none :=
    srw_resheaders_none now status "content-length".data headers h (by decide) (by decide)
  simp [logwrapper, hcl, dictGet_dictSet_self]

/--
Claim C5, witness: a handler returning `200 OK` with body `b"hi"` (bytes
`[104, 105]`) and no explicit `content-length` is recorded with
`content-length = "2"`.
-/
theorem response_content_length_injected_witness :
    (logwrapper (fun _ => AppBehavior.normal "200 OK".data [] [] [[104, 105]] :
        Environ → AppBehavior Unit) "Thu".data egEnviron).queued.map
        (fun x => (x.2.headers.map (fun rh => dictGet rh "content-length".data), x.2.body))
      = [(some (some "2".data), some [104, 105])] := by
  have h := response_content_length_injected "200 OK".data [] [] [[104, 105]] "Thu".data
    egEnviron (by decide)
  exact h.trans (by decide)

/-! ## Claim C6: which injected headers reach the transport -/

/--
Claim C6, counterexample: for a handler omitting all three headers, the
injected `content-length` (`"2"` for body `b"hi"`) appears in the recorded
response headers but nowhere in the header list passed onward to the
underlying transport — only `Date` and `Server` are appended there.
-/
theorem content_length_not_forwarded_cx :
    (c6Wrap.queued.map (fun x => x.2.headers.map (fun rh =>
        dictGet rh "content-length".data)) = [some (some "2".data)]) ∧
    c6Wrap.transportHeaders
      = [("Date".data, "Thu".data), ("Server".data, "httptest".data)] ∧
    c6Wrap.transportHeaders.all
      (fun kv => !(pyLower kv.1 = "content-length".data)) = true := by
  refine ⟨?_, ?_, ?_⟩ <;> decide

/--
Claim C6, amended: of the three headers the recorder injects when the
handler omits them, `date` and `server` are appended to the header list the
transport holds (so the real client receives them), while the injected
`content-length` is stored in the recorded response headers only and is
never added to the transport's header list.
-/
theorem injected_headers_partial_forwarding (status : PyStr)
    (headers : List (PyStr × PyStr)) (written out : List Bytes) (now : PyStr)
    (env : Environ)
    (hdate : ∀ kv ∈ headers, pyLower kv.1 ≠ "date".data)
    (hserver : ∀ kv ∈ headers, pyLower kv.1 ≠ "server".data)
    (hcl : ∀ kv ∈ headers, pyLower kv.1 ≠ "content-length".data) :
    (logwrapper (fun _ => AppBehavior.normal status headers written out :
        Environ → AppBehavior Unit) now env).transportHeaders
      = headers ++ [("Date".data, now), ("Server".data, "httptest".data)] ∧
    (logwrapper (fun _ => AppBehavior.normal status headers written out :
        Environ → AppBehavior Unit) now env).queued.map
        (fun x => x.2.headers.map (fun rh =>
          (dictGet rh "date".data, dictGet rh "server".data,
           dictGet rh "content-length".data)))
      = [some (some now, some "httptest".data,
          some (pyStrOfNat (written.flatten ++ out.flatten).length))] ∧
    (∀ kv ∈ (logwrapper (fun _ => AppBehavior.normal status headers written out :
        Environ → AppBehavior Unit) now env).transportHeaders,
      pyLower kv.1 ≠ "content-length".data) := by
  have h0date : dictGet
      (headers.foldl (fun d kv => addHeader d (pyLower kv.1) kv.2) []) "date".data
      = none := by
    rw [dictGet_foldl_addHeader _ _ _ hdate]; rfl
  have h0server : dictGet
      (headers.foldl (fun d kv => addHeader d (pyLower kv.1) kv.2) []) "server".data
      = none := by
    rw [dictGet_foldl_addHeader _ _ _ hserver]; rfl
  have h0cl : dictGet
      (headers.foldl (fun d kv => addHeader d (pyLower kv.1) kv.2) [])
      "content-length".data = none := by
    rw [dictGet_foldl_addHeader _ _ _ hcl]; rfl
  have h1server : dictGet
      (dictSet (headers.foldl (fun d kv => addHeader d (pyLower kv.1) kv.2) [])
        "date".data now) "server".data = none := by
    rw [dictGet_dictSet_ne _ _ _ _ (by decide)]
    exact h0server
  have hsrw : startResponseWrapper now status headers
      = (status,
         dictSet (dictSet (headers.foldl (fun d kv => addHeader d (pyLower kv.1) kv.2) [])
           "date".data now) "server".data "httptest".data,
         headers ++ [("Date".data, now), ("Server".data, "httptest".data)]) := by
    unfold startResponseWrapper
    dsimp only
    rw [injectIfMissing_of_missing _ _ _ _ _ h0date]
    dsimp only
    rw [injectIfMissing_of_missing _ _ _ _ _ h1server]
    simp [List.append_assoc]
  have hclfull : dictGet
      (dictSet (dictSet (headers.foldl (fun d kv => addHeader d (pyLower kv.1) kv.2) [])
        "date".data now) "server".data "httptest".data) "content-length".data = none := by
    rw [dictGet_dictSet_ne _ _ _ _ (by decide), dictGet_dictSet_ne _ _ _ _ (by decide)]
    exact h0cl
  have hth : (logwrapper (fun _ => AppBehavior.normal status headers written out :
      Environ → AppBehavior Unit) now env).transportHeaders
      = headers ++ [("Date".data, now), ("Server".data, "httptest".data)] := by
    simp [logwrapper, hsrw]
  refine ⟨hth, ?_, ?_⟩
  · simp only [logwrapper, hsrw, List.map_cons, List.map_nil]
    rw [if_pos hclfull]
    simp only [Option.map_some']
    rw [dictGet_dictSet_self]
    rw [dictGet_dictSet_ne _ "content-length".data _ "date".data (by decide)]
    rw [dictGet_dictSet_ne _ "content-length".data _ "server".data (by decide)]
    rw [dictGet_dictSet_self]
    rw [dictGet_dictSet_ne _ "server".data _ "date".data (by decide)]
    rw [dictGet_dictSet_self]
  · intro kv hkv
    rw [hth] at hkv
    rcases List.mem_append.mp hkv with h1 | h2
    · exact hcl kv h1
    · simp only [List.mem_cons, List.not_mem_nil, or_false] at h2
      rcases h2 with h2 | h2
      · subst h2
        show pyLower "Date".data ≠ "content-length".data
        decide
      · subst h2
        show pyLower "Server".data ≠ "content-length".data
        decide

/-- Claim C6, witness for the amended theorem at a concrete handler. -/
theorem injected_headers_partial_forwarding_witness :
    (logwrapper (fun _ => AppBehavior.normal "200 OK".data [] [] [[104, 105]] :
        Environ → AppBehavior Unit) "Thu".data egEnviron).transportHeaders
      = [("Date".data, "Thu".data), ("Server".data, "httptest".data)] := by
  have h := (injected_headers_partial_forwarding "200 OK".data [] [] [[104, 105]]
    "Thu".data egEnviron (by decide) (by decide) (by decide)).1
  exact h.trans (by decide)

/-! ## Claim C7: recording happens on every exit path -/

/--
Claim C7: every invocation of the wrapped handler deposits exactly one
`(request, response)` exchange into the channel; when the handler raises,
the exchange (with whatever partial response state was captured — here the
status when `start_response` had been called) is still deposited and the
handler's exception propagates outward unchanged.
-/
theorem exchange_always_queued (ε : Type) (app : Environ → AppBehavior ε) (now : PyStr)
    (env : Environ) :
    (logwrapper app now env).queued.length = 1 ∧
    (∀ e, app (environAfterBodyRead env) = AppBehavior.raisesBefore e →
      (logwrapper app now env).result = Except.error e) ∧
    (∀ st hs wr e, app (environAfterBodyRead env) = AppBehavior.raisesAfter st hs wr e →
      (logwrapper app now env).result = Except.error e ∧
      (logwrapper app now env).queued.map (fun x => x.2.status) = [some st]) := by
  refine ⟨?_, ?_, ?_⟩
  · rcases happ : app (environAfterBodyRead env) <;> simp [logwrapper, happ]
  · intro e he
    simp [logwrapper, he]
  · intro st hs wr e he
    simp [logwrapper, he, startResponseWrapper]

/-- Claim C7, witness: a handler that raises before `start_response`. -/
theorem exchange_always_queued_witness :
    (c7App (environAfterBodyRead egEnviron) = AppBehavior.raisesBefore ()) ∧
    (logwrapper c7App "Thu".data egEnviron).queued.length = 1 ∧
    (logwrapper c7App "Thu".data egEnviron).result = Except.error () := by
  refine ⟨rfl, (exchange_always_queued Unit c7App "Thu".data egEnviron).1, ?_⟩
  exact (exchange_always_queued Unit c7App "Thu".data egEnviron).2.1 () rfl

/-! ## Claim C8: path reconstruction -/

/--
Claim C8: the recorded path is the mount point concatenated with the
remaining path, with `?` plus the query string appended when one is
present: with a truthy `SCRIPT_NAME` the mount point is `SCRIPT_NAME` and
the remainder `PATH_INFO`; at the root mount (falsy `SCRIPT_NAME`) a sent
path `/rest` is reproduced verbatim, so recording round-trips.
-/
theorem recordedPath_mount_concat (sn : PyStr) (sn' : Option PyStr) (pinfo rest : PyStr)
    (q : Option PyStr) :
    (sn ≠ [] → recordedPath (some sn) (some pinfo) q = sn ++ pinfo ++ qsuffix q) ∧
    (pyTruthy sn' = false →
      recordedPath sn' (some ('/' :: rest)) q = ('/' :: rest) ++ qsuffix q) := by
  constructor
  · intro hsn
    have ht : pyTruthy (some sn) = true := by
      cases sn with
      | nil => exact absurd rfl hsn
      | cons c cs => rfl
    by_cases hq : pyTruthy q = true <;>
      simp [recordedPath, qsuffix, ht, hq, List.append_assoc]
  · intro hsn'
    by_cases hq : pyTruthy q = true <;>
      simp [recordedPath, qsuffix, hsn', hq, List.append_assoc,
        show "/".data = ['/'] from rfl]

/--
Claim C8, witness: a request for `/foo?x=1` sent to the root mount point is
recorded with path exactly `/foo?x=1`.
-/
theorem recordedPath_mount_concat_witness :
    pyTruthy (some []) = false ∧
    recordedPath (some []) (some "/foo".data) (some "x=1".data) = "/foo?x=1".data := by
  refine ⟨by decide, ?_⟩
  have h := (recordedPath_mount_concat [] (some []) [] "foo".data (some "x=1".data)).2
    (by decide)
  exact h.trans (by decide)

/-! ## Claim C10: eager body capture -/

/--
Claim C10: the recorded request body is `None` exactly when `CONTENT_LENGTH`
is missing, empty, not all digits, or parses to zero (so `content-length: 0`
is indistinguishable from no body header); when it is a positive integer
`n`, exactly `n` bytes are read from the input stream and the handler's
input is replaced by a replayable buffer of those very bytes.
-/
theorem request_body_capture (cl : Option PyStr) (input : Bytes) :
    ((recordedBody cl input).1 = none ↔
      (cl = none ∨ ∃ s, cl = some s ∧
        (s = [] ∨ ¬ s.all Char.isDigit = true ∨ pyToNat s = 0))) ∧
    (∀ s, cl = some s → s ≠ [] → s.all Char.isDigit = true → 0 < pyToNat s →
      (recordedBody cl input).1 = some (input.take (pyToNat s)) ∧
      (recordedBody cl input).2 = input.take (pyToNat s)) := by
  constructor
  · cases cl with
    | none => simp [recordedBody, parsedLength]
    | some s =>
      by_cases he : s = []
      · subst he
        simp [recordedBody, parsedLength]
      · have hie : s.isEmpty = false := by
          cases s with
          | nil => exact absurd rfl he
          | cons c cs => rfl
        by_cases hd : s.all Char.isDigit = true
        · have hc : (!s.isEmpty && pyIsDigit s) = true := by
            simp [pyIsDigit, hie, hd]
          have hp : parsedLength (some s) = (pyToNat s : Int) := by
            simp [parsedLength, hc]
          by_cases hz : pyToNat s = 0
          · have hbody : (recordedBody (some s) input).1 = none := by
              simp [recordedBody, hp, hz]
            rw [hbody]
            simp only [true_iff]
            exact Or.inr ⟨s, rfl, Or.inr (Or.inr hz)⟩
          · have hgt : (pyToNat s : Int) > 0 := by
              exact_mod_cast Nat.pos_of_ne_zero hz
            have hbody : (recordedBody (some s) input).1
                = some (input.take (pyToNat s : Int).toNat) := by
              simp [recordedBody, hp, hgt]
            rw [hbody]
            constructor
            · intro hcontra
              exact absurd hcontra (by simp)
            · rintro (hcontra | ⟨s', hs', hcontra⟩)
              · cases hcontra
              · cases hs'
                rcases hcontra with hcontra | hcontra | hcontra
                · exact absurd hcontra he
                · exact absurd hd hcontra
                · exact absurd hcontra hz
        · have hd' : s.all Char.isDigit = false := by
            cases hcase : s.all Char.isDigit with
            | true => exact absurd hcase hd
            | false => rfl
          have hc : (!s.isEmpty && pyIsDigit s) = false := by
            simp [pyIsDigit, hd']
          have hbody : (recordedBody (some s) input).1 = none := by
            simp [recordedBody, parsedLength, hc]
          rw [hbody]
          simp only [true_iff]
          exact Or.inr ⟨s, rfl, Or.inr (Or.inl hd)⟩
  · intro s hcl hne hdig hpos
    subst hcl
    have hie : s.isEmpty = false := by
      cases s with
      | nil => exact absurd rfl hne
      | cons c cs => rfl
    have hc : (!s.isEmpty && pyIsDigit s) = true := by
      simp [pyIsDigit, hie, hdig]
    have hp : parsedLength (some s) = (pyToNat s : Int) := by
      simp [parsedLength, hc]
    have hgt : (pyToNat s : Int) > 0 := by exact_mod_cast hpos
    constructor <;> simp [recordedBody, hp, hgt]

/--
Claim C10, witness: `content-length: 0` records body `None`, exactly like a
missing header, while `content-length: 2` reads exactly the first two bytes
and replays them.
-/
theorem request_body_capture_witness :
    (recordedBody (some "0".data) [7, 8]).1 = none ∧
    (recordedBody none [7, 8]).1 = none ∧
    (recordedBody (some "2".data) [7, 8, 9]).1 = some [7, 8] ∧
    (recordedBody (some "2".data) [7, 8, 9]).2 = [7, 8] := by
  refine ⟨?_, by decide, ?_, ?_⟩
  · exact (request_body_capture (some "0".data) [7, 8]).1.mpr
      (Or.inr ⟨"0".data, rfl, Or.inr (Or.inr (by decide))⟩)
  · have h := ((request_body_capture (some "2".data) [7, 8, 9]).2 "2".data rfl
      (by decide) (by decide) (by decide)).1
    exact h.trans (by decide)
  · have h := ((request_body_capture (some "2".data) [7, 8, 9]).2 "2".data rfl
      (by decide) (by decide) (by decide)).2
    exact h.trans (by decide)
